import Mathlib

/-!
Verification development for the recurring-task executor (`Worker`) of the
event-sourcing-bridge repository.

Shallow embedding of `src/library/worker.ts` (the `Worker` class), together
with the constants of `src/library/constants.ts` re-exported through
`src/library/channels.ts` (`SECONDS_TO_MS`, `DEFAULT_INTERVAL`).

Layers of the model:
* JavaScript dynamic values (`JSValue`, `JSNumber`) with `typeof` and
  truthiness, needed to mirror the constructor's runtime validation
  (`if (options) { ... }`, `if (options.interval) { ... }`, ...).
* `construct`: the validation performed by `Worker`'s constructor, returning
  either the distinct `TypeError` message the constructor throws or the
  validated configuration (`Config`: effective interval, effective
  fetch-processing timeout, whether a custom error callback was installed).
* `runIteration`: one pass of the `#startWorker` loop body (the
  `Promise.race` of the fetch against the timeout waiter, the single
  `channels.worker.publish` call on either branch, the error-message
  rewrite, and the error-callback invocation), driven by a scripted
  behaviour of the caller-supplied fetch (`FetchOutcome`).
* `WorkerLC` with `stop`, `startResult`, `startPhaseTrace`, `loopExit`: the
  lifecycle state machine (`state`, the private `#stopping` flag, the
  `#cancelTask` abort controller) with the synchronous prologue of
  `#startWorker` made explicit (an async function body runs synchronously
  up to its first `await`).
-/

namespace EventSourcingBridge

/-- `SECONDS_TO_MS = 1e3` from `constants.ts`. -/
def SECONDS_TO_MS : Int := 1000

/-- `DEFAULT_INTERVAL = SECONDS_TO_MS` from `constants.ts`: the 1000 ms
floor/default for the polling interval. -/
def DEFAULT_INTERVAL : Int := SECONDS_TO_MS

/-- The four lifecycle states of `WORKER_STATES` in `worker.ts`. -/
inductive WorkerState where
  | created
  | active
  | stopping
  | stopped
deriving DecidableEq, Repr

/-- A JavaScript number as far as the constructor's validation observes it:
`NaN`, an integer value, or a finite non-integer value (sign irrelevant,
since `Number.isInteger` already fails before the sign test). -/
inductive JSNumber where
  | nan
  | int (n : Int)
  | nonint
deriving DecidableEq, Repr

/-- A JavaScript value as far as the `Worker` constructor observes it.
`object` carries the five option fields read by the constructor
(`name`, `fetch`, `interval`, `fetchProcessingTimeout`, `errorCallback`);
an absent field is `undefined`. -/
inductive JSValue where
  | undefined
  | nullv
  | boolean (b : Bool)
  | number (x : JSNumber)
  | string (s : String)
  | function
  | object (name fetch interval fetchProcessingTimeout errorCallback : JSValue)
deriving DecidableEq, Repr

/-- JavaScript `typeof`. Note `typeof null === "object"`. -/
def jsTypeof : JSValue → String
  | .undefined => "undefined"
  | .nullv => "object"
  | .boolean _ => "boolean"
  | .number _ => "number"
  | .string _ => "string"
  | .function => "function"
  | .object _ _ _ _ _ => "object"

/-- JavaScript truthiness: `undefined`, `null`, `false`, `0`, `NaN` and the
empty string are falsy, everything else is truthy. -/
def truthy : JSValue → Bool
  | .undefined => false
  | .nullv => false
  | .boolean b => b
  | .number .nan => false
  | .number (.int n) => decide (n ≠ 0)
  | .number .nonint => true
  | .string s => decide (s ≠ "")
  | .function => true
  | .object _ _ _ _ _ => true

/-- The part of a constructed `Worker` instance settled by validation:
the effective `#interval`, the effective `#fetchProcessingTimeout`
(`none` = the unbounded sentinel: the private field stays `undefined`),
and whether a caller-supplied `#errorCallback` replaced the default
console logger. -/
structure Config where
  interval : Int
  fetchProcessingTimeout : Option Int
  hasErrorCallback : Bool
deriving DecidableEq, Repr

/-- The `TypeError` message for a malformed options value. -/
def msgOptionsObject : String := "Worker options must be an object"

/-- The `TypeError` message for an invalid `interval`. -/
def msgInterval : String := "Worker options.interval must be a non-negative integer"

/-- The `TypeError` message for an invalid `fetchProcessingTimeout`. -/
def msgTimeout : String :=
  "Worker options.fetchProcessingTimeout must be a non-negative integer"

/-- The `TypeError` message for an invalid `fetch`. -/
def msgFetch : String := "Worker options.fetch must be a function"

/-- The `TypeError` message for an invalid `errorCallback` (verbatim from
the source, including its grammar). -/
def msgErrorCallback : String := "Worker.errorCallback to be a function"

/-- `if (options.interval) { ...validate...; this.#interval =
Math.max(DEFAULT_INTERVAL, options.interval); }` — a falsy `interval`
(absent, `0`, `NaN`, ...) skips the block and the 1000 ms default stands;
a truthy one must be a non-negative integer and is clamped from below. -/
def checkInterval (v : JSValue) : Except String Int :=
  if truthy v = true then
    match v with
    | .number (.int n) =>
      if n < 0 then .error msgInterval else .ok (max DEFAULT_INTERVAL n)
    | _ => .error msgInterval
  else
    .ok DEFAULT_INTERVAL

/-- `if (options.fetchProcessingTimeout) { ...validate...;
this.#fetchProcessingTimeout = options.fetchProcessingTimeout; }` — a falsy
value (absent, `0`, `NaN`, ...) skips the block and the field stays
`undefined` (`none`). -/
def checkTimeout (v : JSValue) : Except String (Option Int) :=
  if truthy v = true then
    match v with
    | .number (.int n) =>
      if n < 0 then .error msgTimeout else .ok (some n)
    | _ => .error msgTimeout
  else
    .ok none

/-- `if (!options.fetch || typeof options.fetch !== 'function') throw ...`. -/
def checkFetch (v : JSValue) : Except String Unit :=
  if truthy v = false then .error msgFetch
  else if jsTypeof v = "function" then .ok ()
  else .error msgFetch

/-- `if (options.errorCallback) { if (typeof options.errorCallback !==
'function') throw ...; this.#errorCallback = options.errorCallback; }`. -/
def checkErrorCallback (v : JSValue) : Except String Bool :=
  if truthy v = true then
    if jsTypeof v = "function" then .ok true else .error msgErrorCallback
  else
    .ok false

/-- The body of the `if (options) { ... }` validation block, in source
order: interval, fetchProcessingTimeout, fetch, errorCallback. The `name`
field is never inspected at runtime. -/
def validateOptions (name fetch interval fetchProcessingTimeout errorCallback : JSValue) :
    Except String Config :=
  match checkInterval interval with
  | .error e => .error e
  | .ok i =>
    match checkTimeout fetchProcessingTimeout with
    | .error e => .error e
    | .ok t =>
      match checkFetch fetch with
      | .error e => .error e
      | .ok _ =>
        match checkErrorCallback errorCallback with
        | .error e => .error e
        | .ok cb => .ok { interval := i, fetchProcessingTimeout := t, hasErrorCallback := cb }

/-- The `Worker` constructor's validation. A falsy `options` value
(`undefined`, `null`, ...) skips the whole validation block — construction
then succeeds with every default, even though no fetch function exists. A
truthy non-object throws `TypeError`. An `Except.error` models a thrown
`TypeError` (no instance is returned); `Except.ok` models successful
construction. The only truthy value with `typeof === "object"` is an
options object, so the fall-through arm of the match is unreachable. -/
def construct (options : JSValue) : Except String Config :=
  if truthy options = true then
    if jsTypeof options = "object" then
      match options with
      | .object name fetch interval fetchProcessingTimeout errorCallback =>
        validateOptions name fetch interval fetchProcessingTimeout errorCallback
      | _ => .ok { interval := DEFAULT_INTERVAL, fetchProcessingTimeout := none,
                   hasErrorCallback := false }
    else
      .error msgOptionsObject
  else
    .ok { interval := DEFAULT_INTERVAL, fetchProcessingTimeout := none,
          hasErrorCallback := false }

/-- An error value as the loop body observes it: either a recognized error
(`Error.isError(err)` true, carrying its mutable `message`) or any other
thrown value, represented by its `String(err)` form. -/
inductive JSError where
  | error (msg : String)
  | nonError (str : String)
deriving DecidableEq, Repr

/-- The record passed to `channels.worker.publish` in the loop body:
`{ operation: 'worker:fetch', params: { id, name }, duration, success,
error? }`. `duration` is `performance.now() - start`, in milliseconds. -/
structure OutcomeRecord where
  operation : String
  paramsId : String
  paramsName : String
  duration : Int
  success : Bool
  error : Option String
deriving DecidableEq, Repr

/-- `error: Error.isError(err) ? err.message : String(err)` from the
failure publish. -/
def errorString : JSError → String
  | .error msg => msg
  | .nonError str => str

/-- `err.message = err.message + ' (WorkName: ' + name + ', Worker: ' + id
+ ')'` — the correlation suffix appended in the catch block. -/
def augmentMessage (msg name id : String) : String :=
  msg ++ " (WorkName: " ++ name ++ ", Worker: " ++ id ++ ")"

/-- The message rewrite performed in the catch block before calling the
error callback: applied only when `Error.isError(err)`; any other value is
passed through unchanged. -/
def rewriteError (name id : String) : JSError → JSError
  | .error msg => .error (augmentMessage msg name id)
  | .nonError str => .nonError str

/-- Scripted behaviour of one invocation of the caller-supplied `fetch`:
it settles successfully after `settleMs` milliseconds, rejects with `err`
after `settleMs` milliseconds, or never settles at all (a non-cooperative
fetch that ignores its abort signal). -/
inductive FetchOutcome where
  | resolves (settleMs : Nat)
  | rejects (settleMs : Nat) (err : JSError)
  | hangs
deriving DecidableEq, Repr

/-- How `Promise.race([timeout(this.#fetchProcessingTimeout),
this.options.fetch({signal})])` settles. Result: `none` when the race never
settles (no timeout configured — `timeout(undefined)` returns a promise
that never resolves — and the fetch hangs); otherwise
`some (elapsedMs, rejection?, abortedByTimeout)`. When the timeout timer
elapses first, the waiter calls `this.#cancelTask?.abort()` and then itself
resolves (it never rejects: its catch swallows everything), so the race
settles successfully at the timeout bound. A fetch that settles at exactly
the timeout bound is taken to win the race (tie-breaking convention). -/
def raceSettles : Option Nat → FetchOutcome → Option (Nat × Option JSError × Bool)
  | none, .resolves d => some (d, none, false)
  | none, .rejects d e => some (d, some e, false)
  | none, .hangs => none
  | some t, .resolves d => if d ≤ t then some (d, none, false) else some (t, none, true)
  | some t, .rejects d e => if d ≤ t then some (d, some e, false) else some (t, none, true)
  | some t, .hangs => some (t, none, true)

/-- Observable effects of one completed pass of the loop body. -/
structure IterationResult where
  /-- Records passed to `channels.worker.publish`, in order. -/
  published : List OutcomeRecord
  /-- The argument of the `this.#errorCallback(err)` call, if it was made. -/
  callbackArg : Option JSError
  /-- `performance.now() - start` when the race settled. -/
  elapsed : Nat
  /-- Whether the timeout waiter called `this.#cancelTask?.abort()`. -/
  taskAborted : Bool
deriving DecidableEq, Repr

/-- One pass of the `#startWorker` loop body, from `const start =
performance.now()` up to the `finally { cancelTimeout.abort() }`:
race the fetch against the timeout waiter; on resolution publish a success
record (no `error` field); on rejection publish a failure record carrying
the error's original message, rewrite the message (recognized errors only)
and invoke the error callback with the rewritten value. `none` when the
race never settles, in which case the pass never completes and nothing is
published. -/
def runIteration (timeout : Option Nat) (name id : String) (f : FetchOutcome) :
    Option IterationResult :=
  match raceSettles timeout f with
  | none => none
  | some (elapsed, none, aborted) =>
    some { published := [{ operation := "worker:fetch", paramsId := id, paramsName := name,
                           duration := (elapsed : Int), success := true, error := none }],
           callbackArg := none, elapsed := elapsed, taskAborted := aborted }
  | some (elapsed, some e, aborted) =>
    some { published := [{ operation := "worker:fetch", paramsId := id, paramsName := name,
                           duration := (elapsed : Int), success := false,
                           error := some (errorString e) }],
           callbackArg := some (rewriteError name id e), elapsed := elapsed,
           taskAborted := aborted }

/-- Lifecycle state of a `Worker` instance: the public `state`, the private
`#stopping` flag, and the private `#cancelTask` abort controller
(`none` = `undefined`; `some b` = a controller exists with `b` = aborted). -/
structure WorkerLC where
  state : WorkerState
  stopping : Bool
  cancelTask : Option Bool
deriving DecidableEq, Repr

/-- A freshly constructed instance: `state = 'created'`, `#stopping =
false`, `#cancelTask = undefined`. -/
def initialWorker : WorkerLC :=
  { state := .created, stopping := false, cancelTask := none }

/-- `stop()`: sets `#stopping = true`, sets `state = 'stopping'`, and calls
`this.#cancelTask?.abort()` (a no-op when no controller exists; aborting an
already-aborted controller is also a no-op). Total — the source method has
no throw site. -/
def stop (w : WorkerLC) : WorkerLC :=
  { w with stopping := true, state := .stopping,
           cancelTask := w.cancelTask.map (fun _ => true) }

/-- The net effect of `start()` together with the synchronous prologue of
`#startWorker()` (an async function body runs synchronously up to its
first `await`): if `state === 'active'` the guard makes it a no-op;
otherwise `#startWorker` runs, setting `state = 'active'`, and then either
the `while (this.#stopping === false)` condition fails at once and
`state = 'stopped'` is reached before `start()` returns, or the first loop
pass begins (a fresh `#cancelTask` is installed and the body suspends at
its first `await`). The boolean reports whether a new iteration cycle
began. -/
def startResult (w : WorkerLC) : WorkerLC × Bool :=
  if w.state = .active then (w, false)
  else if w.stopping = true then ({ w with state := .stopped }, false)
  else ({ w with state := .active, cancelTask := some false }, true)

/-- The sequence of assignments to `state` performed synchronously by a
`start()` call, in order: none when the guard fires; `active` then
`stopped` when `#stopping` is already set (the loop body never runs);
just `active` when a new cycle begins. -/
def startPhaseTrace (w : WorkerLC) : List WorkerState :=
  if w.state = .active then []
  else if w.stopping = true then [.active, .stopped]
  else [.active]

/-- The loop epilogue of `#startWorker`: once `while (this.#stopping ===
false)` fails, the only statement executed is `this.state =
WORKER_STATES.stopped` — in particular `#stopping` is not touched. -/
def loopExit (w : WorkerLC) : WorkerLC :=
  { w with state := .stopped }

/-- An instance mid-run: phase `active`, flag unset, a fresh (unaborted)
`#cancelTask` controller installed by the current loop pass. -/
def activeWorker : WorkerLC :=
  { state := .active, stopping := false, cancelTask := some false }

/-- String append is associative (helper for substring decompositions). -/
theorem strAppend_assoc (a b c : String) : a ++ b ++ c = a ++ (b ++ c) := by
  rcases a with ⟨la⟩
  rcases b with ⟨lb⟩
  rcases c with ⟨lc⟩
  show String.mk (la ++ lb ++ lc) = String.mk (la ++ (lb ++ lc))
  rw [List.append_assoc]

/-- C9: `stop()`/`dispose()` is idempotent — a second consecutive call
changes nothing — and total (the source method has no throw site), in
particular defined before `start()` was ever called (`#cancelTask` still
`undefined`) and after the loop has reached `stopped`. -/
theorem stop_idempotent_and_total :
    (∀ w : WorkerLC, stop (stop w) = stop w) ∧
    stop initialWorker =
      { state := .stopping, stopping := true, cancelTask := none } ∧
    stop { state := .stopped, stopping := true, cancelTask := some true } =
      { state := .stopping, stopping := true, cancelTask := some true } := by
  refine ⟨fun w => ?_, rfl, rfl⟩
  rcases w with ⟨s, f, c⟩
  cases c <;> rfl

/-- C10: with a configured timeout `t` and a non-cooperative fetch that
never settles, the timeout waiter aborts the task handle
(`taskAborted = true`) and itself resolves, winning the race at `t`; the
pass publishes a success record (`success = true`, no `error` field) and
does not invoke the error callback — the timed-out fetch is reported as a
success, not a failure. -/
theorem timeout_noncooperative_fetch_success (t : Nat) (name id : String) :
    runIteration (some t) name id .hangs =
      some { published := [{ operation := "worker:fetch", paramsId := id,
                             paramsName := name, duration := (t : Int),
                             success := true, error := none }],
             callbackArg := none, elapsed := t, taskAborted := true } := rfl

/-- C8: when the fetch rejects with the recognized error `Error("boom")`
under `name = "worker-x"`, the pass publishes one failure record whose
`error` field is the original message `"boom"`, then the error callback
receives the rewritten error whose message is the original plus the
correlation suffix — containing both `"boom"` and `"worker-x"` as
substrings; a rejected non-Error value reaches the callback unchanged and
is recorded via its string form. -/
theorem reject_publishes_original_then_augments (id : String) (d : Nat) :
    runIteration none "worker-x" id (.rejects d (.error "boom")) =
      some { published := [{ operation := "worker:fetch", paramsId := id,
                             paramsName := "worker-x", duration := (d : Int),
                             success := false, error := some "boom" }],
             callbackArg := some (.error (augmentMessage "boom" "worker-x" id)),
             elapsed := d, taskAborted := false } ∧
    (∃ p q, augmentMessage "boom" "worker-x" id = p ++ ("boom" ++ q)) ∧
    (∃ p q, augmentMessage "boom" "worker-x" id = p ++ ("worker-x" ++ q)) ∧
    (∀ s, runIteration none "worker-x" id (.rejects d (.nonError s)) =
      some { published := [{ operation := "worker:fetch", paramsId := id,
                             paramsName := "worker-x", duration := (d : Int),
                             success := false, error := some s }],
             callbackArg := some (.nonError s), elapsed := d,
             taskAborted := false }) := by
  refine ⟨rfl, ⟨"", " (WorkName: worker-x, Worker: " ++ id ++ ")", ?_⟩,
    ⟨"boom (WorkName: ", ", Worker: " ++ id ++ ")", ?_⟩, fun s => rfl⟩
  · show "boom" ++ " (WorkName: " ++ "worker-x" ++ ", Worker: " ++ id ++ ")" = _
    rw [strAppend_assoc "boom", strAppend_assoc "boom", strAppend_assoc "boom"]
    rfl
  · show "boom" ++ " (WorkName: " ++ "worker-x" ++ ", Worker: " ++ id ++ ")" = _
    rw [strAppend_assoc, strAppend_assoc]
    rfl

/-- Helper: a successful `validateOptions` run pins the effective interval
to the result of `checkInterval`. -/
theorem validateOptions_ok_interval (name fetch itv fpt ecb : JSValue) (cfg : Config)
    (h : validateOptions name fetch itv fpt ecb = .ok cfg) :
    checkInterval itv = .ok cfg.interval := by
  unfold validateOptions at h
  split at h
  · cases h
  · rename_i i hi
    split at h
    · cases h
    · split at h
      · cases h
      · split at h
        · cases h
        · injection h with h
          subst h
          exact hi

/-- Helper: a successful `validateOptions` run pins the effective timeout
to the result of `checkTimeout`. -/
theorem validateOptions_ok_timeout (name fetch itv fpt ecb : JSValue) (cfg : Config)
    (h : validateOptions name fetch itv fpt ecb = .ok cfg) :
    checkTimeout fpt = .ok cfg.fetchProcessingTimeout := by
  unfold validateOptions at h
  split at h
  · cases h
  · split at h
    · cases h
    · rename_i t ht
      split at h
      · cases h
      · split at h
        · cases h
        · injection h with h
          subst h
          exact ht

/-- Helper: whatever `checkInterval` accepts is at least the 1000 ms floor. -/
theorem checkInterval_ok_floor (v : JSValue) (i : Int) (h : checkInterval v = .ok i) :
    DEFAULT_INTERVAL ≤ i := by
  unfold checkInterval at h
  split at h
  · split at h
    · split at h
      · cases h
      · injection h with h
        subst h
        exact le_max_left _ _
    · cases h
  · injection h with h
    subst h
    exact le_refl _

/-- Helper: a supplied non-negative integer interval is clamped from below
by the floor — including `0`, which is falsy and therefore skips the
assignment, leaving the default, which equals `max DEFAULT_INTERVAL 0`. -/
theorem checkInterval_int (n : Int) (hn : 0 ≤ n) :
    checkInterval (.number (.int n)) = .ok (max DEFAULT_INTERVAL n) := by
  unfold checkInterval truthy
  rcases eq_or_lt_of_le hn with h0 | h0
  · have : ¬(n ≠ 0) := by omega
    simp [← h0, this]
    unfold DEFAULT_INTERVAL SECONDS_TO_MS
    omega
  · have hne : n ≠ 0 := by omega
    have hnn : ¬(n < 0) := by omega
    simp [hne, hnn]

/-- C7: the scheduling interval floor is 1000 ms; every constructed
instance uses an effective interval ≥ the floor; a supplied non-negative
integer interval yields `max floor requested` (values below the floor are
clamped up, never rejected); an omitted interval yields the floor exactly. -/
theorem effective_interval_floor :
    DEFAULT_INTERVAL = 1000 ∧
    (∀ o : JSValue, ∀ cfg : Config, construct o = .ok cfg →
      DEFAULT_INTERVAL ≤ cfg.interval) ∧
    (∀ name fetch fpt ecb : JSValue, ∀ n : Int, 0 ≤ n → ∀ cfg : Config,
      construct (.object name fetch (.number (.int n)) fpt ecb) = .ok cfg →
      cfg.interval = max DEFAULT_INTERVAL n) ∧
    (∀ name fetch fpt ecb : JSValue, ∀ cfg : Config,
      construct (.object name fetch .undefined fpt ecb) = .ok cfg →
      cfg.interval = DEFAULT_INTERVAL) := by
  refine ⟨rfl, fun o cfg h => ?_, fun name fetch fpt ecb n hn cfg h => ?_,
    fun name fetch fpt ecb cfg h => ?_⟩
  · unfold construct at h
    split at h
    · split at h
      · split at h
        · exact checkInterval_ok_floor _ _ (validateOptions_ok_interval _ _ _ _ _ _ h)
        · injection h with h
          subst h
          exact le_refl _
      · cases h
    · injection h with h
      subst h
      exact le_refl _
  · have h1 : validateOptions name fetch (.number (.int n)) fpt ecb = .ok cfg := h
    have h2 := validateOptions_ok_interval _ _ _ _ _ _ h1
    rw [checkInterval_int n hn] at h2
    injection h2 with h2
    exact h2.symm
  · have h1 : validateOptions name fetch .undefined fpt ecb = .ok cfg := h
    have h2 := validateOptions_ok_interval _ _ _ _ _ _ h1
    unfold checkInterval truthy at h2
    simp at h2
    exact h2.symm

/-- C7 witness: constructing with `interval = 250` (below the floor)
succeeds with effective interval `1000 = max 1000 250`; constructing with
no interval yields the floor. -/
theorem effective_interval_floor_witness :
    DEFAULT_INTERVAL ≤
      (Config.mk 1000 none false).interval ∧
    (Config.mk 1000 none false).interval = max DEFAULT_INTERVAL 250 ∧
    (Config.mk 1000 none false).interval = DEFAULT_INTERVAL :=
  ⟨effective_interval_floor.2.1 (.object .undefined .function (.number (.int 250))
      .undefined .undefined) (Config.mk 1000 none false) rfl,
   effective_interval_floor.2.2.1 .undefined .function .undefined .undefined 250
      (by omega) (Config.mk 1000 none false) rfl,
   effective_interval_floor.2.2.2 .undefined .function .undefined .undefined
      (Config.mk 1000 none false) rfl⟩

/-- C6 counterexample: supplying `fetchProcessingTimeout = 0` does not
yield an effective 0 ms bound — `0` is falsy, the assignment is skipped,
and the private field stays `undefined` (the unbounded sentinel), which
differs from a requested bound of `0`. -/
theorem timeout_zero_counterexample :
    construct (.object (.string "w") .function .undefined (.number (.int 0)) .undefined) =
      .ok { interval := DEFAULT_INTERVAL, fetchProcessingTimeout := none,
            hasErrorCallback := false } ∧
    (Config.mk DEFAULT_INTERVAL none false).fetchProcessingTimeout ≠ some 0 := by
  constructor
  · rfl
  · simp

/-- C6 amended: the effective timeout equals the requested value whenever a
positive timeout is supplied; a supplied `0` is falsy and treated exactly
like an omitted timeout, so the unbounded sentinel is used both when the
timeout is omitted and when `0` is supplied; under the sentinel the waiter
never resolves and never wins the race (a hanging fetch makes the pass
never settle). -/
theorem effective_timeout_positive_only (name : JSValue) (n : Int) (h : 0 < n) :
    construct (.object name .function .undefined (.number (.int n)) .undefined) =
      .ok { interval := DEFAULT_INTERVAL, fetchProcessingTimeout := some n,
            hasErrorCallback := false } ∧
    construct (.object name .function .undefined .undefined .undefined) =
      .ok { interval := DEFAULT_INTERVAL, fetchProcessingTimeout := none,
            hasErrorCallback := false } ∧
    construct (.object name .function .undefined (.number (.int 0)) .undefined) =
      .ok { interval := DEFAULT_INTERVAL, fetchProcessingTimeout := none,
            hasErrorCallback := false } ∧
    (∀ nm id : String, runIteration none nm id .hangs = none) := by
  have hne : n ≠ 0 := by omega
  have hnn : ¬(n < 0) := by omega
  refine ⟨?_, rfl, rfl, fun nm id => rfl⟩
  simp [construct, truthy, jsTypeof, validateOptions, checkInterval, checkTimeout,
    checkFetch, checkErrorCallback, hne, hnn]

/-- C6 witness: instantiated at a supplied timeout of 30000 ms. -/
theorem effective_timeout_positive_only_witness :
    construct (.object (.string "w") .function .undefined (.number (.int 30000))
        .undefined) =
      .ok { interval := DEFAULT_INTERVAL, fetchProcessingTimeout := some 30000,
            hasErrorCallback := false } ∧
    construct (.object (.string "w") .function .undefined .undefined .undefined) =
      .ok { interval := DEFAULT_INTERVAL, fetchProcessingTimeout := none,
            hasErrorCallback := false } ∧
    construct (.object (.string "w") .function .undefined (.number (.int 0))
        .undefined) =
      .ok { interval := DEFAULT_INTERVAL, fetchProcessingTimeout := none,
            hasErrorCallback := false } ∧
    (∀ nm id : String, runIteration none nm id .hangs = none) :=
  effective_timeout_positive_only (.string "w") 30000 (by omega)

/-- C4 counterexample: two of the listed validation failures do not throw.
`interval: NaN` is supplied and is not a non-negative integer, yet `NaN` is
falsy, so `if (options.interval)` skips the check and construction
succeeds; a missing (`undefined`) configuration is not a well-formed
record, yet it is falsy, so `if (options)` skips the whole validation
block and construction succeeds without any fetch function. -/
theorem validation_gap_counterexample :
    construct (.object (.string "w") .function (.number .nan) .undefined .undefined) =
      .ok { interval := DEFAULT_INTERVAL, fetchProcessingTimeout := none,
            hasErrorCallback := false } ∧
    construct .undefined =
      .ok { interval := DEFAULT_INTERVAL, fetchProcessingTimeout := none,
            hasErrorCallback := false } :=
  ⟨rfl, rfl⟩

/-- C4 amended: each listed validation failure throws its own distinct
`TypeError` message, with no instance returned, but only when the
offending value is truthy: a truthy non-object configuration, a truthy
`interval`/`fetchProcessingTimeout` that is not a non-negative integer, a
missing-or-non-callable `fetch` (the only check that also catches falsy
values, via `!options.fetch`), and a truthy non-callable `errorCallback`.
Falsy invalid values — `undefined`/`null` configuration, `NaN` interval or
timeout, falsy non-callable `errorCallback` — skip their checks silently. -/
theorem validation_throws_on_truthy_invalid :
    (∀ v : JSValue, truthy v = true → jsTypeof v ≠ "object" →
      construct v = .error msgOptionsObject) ∧
    (∀ name fetch fpt ecb itv : JSValue, truthy itv = true →
      (∀ n : Int, 0 ≤ n → itv ≠ .number (.int n)) →
      construct (.object name fetch itv fpt ecb) = .error msgInterval) ∧
    (∀ name fetch ecb fpt : JSValue, truthy fpt = true →
      (∀ n : Int, 0 ≤ n → fpt ≠ .number (.int n)) →
      construct (.object name fetch .undefined fpt ecb) = .error msgTimeout) ∧
    (∀ name ecb fetch : JSValue, truthy fetch = false ∨ jsTypeof fetch ≠ "function" →
      construct (.object name fetch .undefined .undefined ecb) = .error msgFetch) ∧
    (∀ name ecb : JSValue, truthy ecb = true → jsTypeof ecb ≠ "function" →
      construct (.object name .function .undefined .undefined ecb) =
        .error msgErrorCallback) ∧
    [msgOptionsObject, msgInterval, msgTimeout, msgFetch,
      msgErrorCallback].Pairwise (· ≠ ·) ∧
    (∀ v : JSValue, ∀ m : String, construct v = .error m →
      ∀ cfg : Config, construct v ≠ .ok cfg) := by
  have hci : ∀ itv : JSValue, truthy itv = true →
      (∀ n : Int, 0 ≤ n → itv ≠ .number (.int n)) →
      checkInterval itv = .error msgInterval := by
    intro itv ht hn
    unfold checkInterval
    rw [ht]
    simp only [if_true]
    cases itv with
    | number x =>
      cases x with
      | nan => rfl
      | int n =>
        have : n < 0 := by
          by_contra hc
          exact hn n (by omega) rfl
        simp [this]
      | nonint => rfl
    | undefined => rfl
    | nullv => rfl
    | boolean b => rfl
    | string s => rfl
    | function => rfl
    | object a b c d e => rfl
  have hct : ∀ fpt : JSValue, truthy fpt = true →
      (∀ n : Int, 0 ≤ n → fpt ≠ .number (.int n)) →
      checkTimeout fpt = .error msgTimeout := by
    intro fpt ht hn
    unfold checkTimeout
    rw [ht]
    simp only [if_true]
    cases fpt with
    | number x =>
      cases x with
      | nan => rfl
      | int n =>
        have : n < 0 := by
          by_contra hc
          exact hn n (by omega) rfl
        simp [this]
      | nonint => rfl
    | undefined => rfl
    | nullv => rfl
    | boolean b => rfl
    | string s => rfl
    | function => rfl
    | object a b c d e => rfl
  refine ⟨?_, ?_, ?_, ?_, ?_, ?_, ?_⟩
  · intro v ht hty
    unfold construct
    rw [ht]
    simp only [if_true]
    rw [if_neg hty]
  · intro name fetch fpt ecb itv ht hn
    show validateOptions name fetch itv fpt ecb = .error msgInterval
    unfold validateOptions
    rw [hci itv ht hn]
  · intro name fetch ecb fpt ht hn
    show validateOptions name fetch .undefined fpt ecb = .error msgTimeout
    unfold validateOptions
    rw [hct fpt ht hn]
    rfl
  · intro name ecb fetch hbad
    show validateOptions name fetch .undefined .undefined ecb = .error msgFetch
    have hcf : checkFetch fetch = .error msgFetch := by
      unfold checkFetch
      rcases hbad with hf | hty
      · rw [hf]
        rfl
      · rcases hft : truthy fetch with _ | _
        · rfl
        · rw [if_neg (by simp), if_neg hty]
    unfold validateOptions
    rw [hcf]
    rfl
  · intro name ecb ht hty
    show validateOptions name .function .undefined .undefined ecb =
      .error msgErrorCallback
    have hce : checkErrorCallback ecb = .error msgErrorCallback := by
      unfold checkErrorCallback
      rw [ht]
      simp only [if_true]
      rw [if_neg hty]
    unfold validateOptions
    rw [hce]
    rfl
  · unfold msgOptionsObject msgInterval msgTimeout msgFetch msgErrorCallback
    decide
  · intro v m h cfg hc
    rw [h] at hc
    cases hc

/-- C4 witness: one representative truthy invalid value per listed failure,
each yielding its distinct error. -/
theorem validation_throws_on_truthy_invalid_witness :
    construct (.string "oops") = .error msgOptionsObject ∧
    construct (.object .undefined .function (.string "abc") .undefined .undefined) =
      .error msgInterval ∧
    construct (.object .undefined .function .undefined (.number .nonint) .undefined) =
      .error msgTimeout ∧
    construct (.object .undefined .undefined .undefined .undefined .undefined) =
      .error msgFetch ∧
    construct (.object .undefined .function .undefined .undefined (.boolean true)) =
      .error msgErrorCallback :=
  ⟨validation_throws_on_truthy_invalid.1 (.string "oops") (by decide) (by decide),
   validation_throws_on_truthy_invalid.2.1 .undefined .function .undefined .undefined
     (.string "abc") (by decide) (fun _ _ h => nomatch h),
   validation_throws_on_truthy_invalid.2.2.1 .undefined .function .undefined
     (.number .nonint) (by decide) (fun _ _ h => nomatch h),
   validation_throws_on_truthy_invalid.2.2.2.1 .undefined .undefined .undefined
     (Or.inl (by decide)),
   validation_throws_on_truthy_invalid.2.2.2.2.1 .undefined (.boolean true)
     (by decide) (by decide)⟩

/-- C5 counterexample: constructing with an empty `name` — and even with
`name` missing altogether — succeeds: the constructor never inspects
`name` at runtime. -/
theorem empty_name_constructs_counterexample :
    construct (.object (.string "") .function .undefined .undefined .undefined) =
      .ok { interval := DEFAULT_INTERVAL, fetchProcessingTimeout := none,
            hasErrorCallback := false } ∧
    construct (.object .undefined .function .undefined .undefined .undefined) =
      .ok { interval := DEFAULT_INTERVAL, fetchProcessingTimeout := none,
            hasErrorCallback := false } :=
  ⟨rfl, rfl⟩

/-- C5 amended: `name` is required non-empty only by the static type
system; the constructor performs no runtime validation of `name` —
construction is entirely insensitive to the `name` field, and an otherwise
valid configuration with an empty or missing `name` constructs
successfully. -/
theorem name_never_validated :
    (∀ n1 n2 fetch itv fpt ecb : JSValue,
      construct (.object n1 fetch itv fpt ecb) =
        construct (.object n2 fetch itv fpt ecb)) ∧
    construct (.object (.string "") .function .undefined .undefined .undefined) =
      .ok { interval := DEFAULT_INTERVAL, fetchProcessingTimeout := none,
            hasErrorCallback := false } ∧
    construct (.object .undefined .function .undefined .undefined .undefined) =
      .ok { interval := DEFAULT_INTERVAL, fetchProcessingTimeout := none,
            hasErrorCallback := false } :=
  ⟨fun _ _ _ _ _ _ => rfl, rfl, rfl⟩

/-- C1 counterexample: run created → (start) active → (stop) stopping →
(loop exits) stopped. The stopping flag is still set — it was never reset
— and a subsequent `start()` neither leaves the phase active nor begins a
new iteration cycle. -/
theorem restart_counterexample :
    (loopExit (stop (startResult initialWorker).1)).stopping = true ∧
    (startResult (loopExit (stop (startResult initialWorker).1))).2 = false ∧
    (startResult (loopExit (stop (startResult initialWorker).1))).1.state =
      .stopped := by
  decide

/-- C1 amended: when the loop exits, the stopping flag is left set — the
loop epilogue only assigns the stopped phase and never resets the flag.
Consequently, `start()` on a stopped instance runs the runner prologue,
which assigns the phase `active` and then immediately `stopped` (the
`while` condition fails at once), beginning no new iteration cycle:
restart does not re-enter the loop. -/
theorem loop_exit_keeps_stopping_flag :
    (∀ w : WorkerLC, (loopExit w).stopping = w.stopping) ∧
    (∀ w : WorkerLC, w.state = .stopped → w.stopping = true →
      startResult w = (w, false) ∧ startPhaseTrace w = [.active, .stopped]) := by
  refine ⟨fun w => rfl, fun w h1 h2 => ?_⟩
  rcases w with ⟨s, f, c⟩
  dsimp at h1 h2
  subst h1
  subst h2
  exact ⟨rfl, rfl⟩

/-- C1 witness: instantiated at the stopped-with-flag-set state that the
counterexample run reaches. -/
theorem loop_exit_keeps_stopping_flag_witness :
    startResult { state := .stopped, stopping := true, cancelTask := some true } =
      ({ state := .stopped, stopping := true, cancelTask := some true }, false) ∧
    startPhaseTrace { state := .stopped, stopping := true, cancelTask := some true } =
      [.active, .stopped] :=
  loop_exit_keeps_stopping_flag.2
    { state := .stopped, stopping := true, cancelTask := some true } rfl rfl

/-- C2 counterexample: on an instance in the stopping phase, `start()` is
not a no-op — the resulting state differs (the phase ends up `stopped`),
and the synchronous phase trace of the call contains an assignment to
`active`. -/
theorem start_while_stopping_counterexample :
    (startResult (stop activeWorker)).1 ≠ stop activeWorker ∧
    WorkerState.active ∈ startPhaseTrace (stop activeWorker) := by
  decide

/-- C2 amended: calling `start()` while the phase is `stopping` is not a
no-op: the guard (`state !== 'active'`) passes, the runner prologue
assigns the phase `active` and then — the stopping flag being set —
immediately `stopped`; no new loop begins. -/
theorem start_while_stopping_runs_prologue :
    ∀ w : WorkerLC, w.state = .stopping → w.stopping = true →
      (startResult w).1 = { w with state := .stopped } ∧
      (startResult w).2 = false ∧
      startPhaseTrace w = [.active, .stopped] := by
  intro w h1 h2
  rcases w with ⟨s, f, c⟩
  dsimp at h1 h2
  subst h1
  subst h2
  exact ⟨rfl, rfl, rfl⟩

/-- C2 witness: instantiated at the state reached right after `stop()` on
an active instance. -/
theorem start_while_stopping_runs_prologue_witness :
    (startResult { state := .stopping, stopping := true, cancelTask := some true }).1 =
      { state := .stopped, stopping := true, cancelTask := some true } ∧
    (startResult { state := .stopping, stopping := true, cancelTask := some true }).2 =
      false ∧
    startPhaseTrace { state := .stopping, stopping := true, cancelTask := some true } =
      [.active, .stopped] :=
  start_while_stopping_runs_prologue
    { state := .stopping, stopping := true, cancelTask := some true } rfl rfl

/-- C3 counterexample: the record published by a completed pass carries the
operation tag `"worker:fetch"`, not the constant `"fetch"` the claim
states (and the millisecond duration travels in a field named `duration`,
not `durationMs`). -/
theorem outcome_operation_counterexample :
    (runIteration none "w" "id-1" (.resolves 5)).map
        (fun r => r.published.map (fun rec => rec.operation)) =
      some ["worker:fetch"] ∧
    ("worker:fetch" : String) ≠ "fetch" := by
  exact ⟨rfl, by decide⟩

/-- C3 amended: every completed pass publishes exactly one outcome record,
of shape `{ operation: 'worker:fetch', params: { id, name }, duration,
success, error? }`: the operation tag is the constant `"worker:fetch"`,
the millisecond duration is carried in the field named `duration` and is
non-negative, and the `error` field is present exactly when `success` is
false. -/
theorem iteration_publishes_one_record (t : Option Nat) (name id : String)
    (f : FetchOutcome) (r : IterationResult)
    (h : runIteration t name id f = some r) :
    r.published.length = 1 ∧
    ∀ rec ∈ r.published,
      rec.operation = "worker:fetch" ∧ rec.paramsId = id ∧ rec.paramsName = name ∧
      0 ≤ rec.duration ∧ (rec.error.isSome = !rec.success) := by
  unfold runIteration at h
  rcases hr : raceSettles t f with _ | ⟨elapsed, rej, ab⟩
  · rw [hr] at h
    cases h
  · rw [hr] at h
    cases rej with
    | none =>
      injection h with h
      subst h
      refine ⟨rfl, ?_⟩
      intro rec hrec
      cases hrec with
      | head => exact ⟨rfl, rfl, rfl, Int.natCast_nonneg _, rfl⟩
      | tail _ hmem => cases hmem
    | some e =>
      injection h with h
      subst h
      refine ⟨rfl, ?_⟩
      intro rec hrec
      cases hrec with
      | head => exact ⟨rfl, rfl, rfl, Int.natCast_nonneg _, rfl⟩
      | tail _ hmem => cases hmem

/-- C3 witness: a concrete completed pass (fetch resolves after 5 ms, no
timeout) with its single, well-shaped record. -/
theorem iteration_publishes_one_record_witness :
    (IterationResult.mk [OutcomeRecord.mk "worker:fetch" "id-1" "w" 5 true none]
        none 5 false).published.length = 1 ∧
    ∀ rec ∈ (IterationResult.mk
        [OutcomeRecord.mk "worker:fetch" "id-1" "w" 5 true none]
        none 5 false).published,
      rec.operation = "worker:fetch" ∧ rec.paramsId = "id-1" ∧ rec.paramsName = "w" ∧
      0 ≤ rec.duration ∧ (rec.error.isSome = !rec.success) :=
  iteration_publishes_one_record none "w" "id-1" (.resolves 5)
    (IterationResult.mk [OutcomeRecord.mk "worker:fetch" "id-1" "w" 5 true none]
      none 5 false) rfl

end EventSourcingBridge
